import Mathlib

/-!
Verification development for the IIT map pipeline (`map_filter1.py`).

The script loads an Excel table of institutions (pandas), builds a feature
group holding an India-states GeoJSON overlay (folium), composes one marker
with a rich HTML popup per table row, assembles a base map with a fixed CSS
block, and saves a single HTML artifact.

Shallow embedding conventions:
* Cell values of the table are `PyValue` (string, int, float, NaN).  Python
  floats are modelled as rationals; their textual rendering (`pyStr`) is an
  abstract total stand-in, since no specified behaviour depends on the exact
  decimal text of a number.
* Python exceptions are the `PyErr` type; fallible code returns `Except`.
* The two external collaborators are modelled as oracles: the filesystem
  plus the pandas Excel parser is `FS` (`excel` returns `none` when the file is
  missing, `some (.error msg)` when `pd.read_excel` raises, `some (.ok rows)`
  on success), and the folium GeoJSON parsing is `ExtLib.jsonParse`.
* The folium check `validate_location` (external library) is modelled by
  `coordOk`: a coordinate must be numeric and not NaN.  The Python `float()`
  conversion of numeric strings is not modelled (strings count as
  non-numeric).
* Mutation of the folium `FeatureGroup` by `add_iit_markers` is modelled by
  returning the list of composed markers, which `create_iit_map` appends to
  the children of the feature group, and serialization (`map_obj.save`) by the
  deterministic function `serializeMap`.
-/

deriving instance DecidableEq for Except

/-- A Python value sitting in a cell of the loaded DataFrame. -/
inductive PyValue where
  | str (s : String)
  | int (n : Int)
  | float (q : Rat)
  | nan
deriving DecidableEq

/-- Python `str()` coercion, total on every `PyValue`.  The rendering of a
float is an abstract stand-in (numerator/denominator text). -/
def pyStr : PyValue → String
  | .str s => s
  | .int n => toString n
  | .float q => toString q.num ++ "/" ++ toString q.den
  | .nan => "nan"

/-- The Python exceptions the script can raise or catch. -/
inductive PyErr where
  | fileNotFound (msg : String)
  | keyError (key : String)
  | valueError (msg : String)
  | exception (msg : String)
deriving DecidableEq

/-- Python `str(e)` on an exception: `str(KeyError(k))` shows the key in
quotes; the other kinds show their message. -/
def errStr : PyErr → String
  | .fileNotFound m => m
  | .keyError k => "\x27" ++ k ++ "\x27"
  | .valueError m => m
  | .exception m => m

/-- One row of the DataFrame: an association list from column name to cell
value.  `row[k]` on a missing column raises `KeyError(k)`. -/
abbrev Row : Type := List (String × PyValue)

/-- Python `row[key]` on a pandas Series: the value, or `KeyError`. -/
def rowGet (row : Row) (key : String) : Except PyErr PyValue :=
  match List.find? (fun kv => kv.1 == key) row with
  | some kv => .ok kv.2
  | none => .error (.keyError key)

/-- UTF-8 encoding of one character as a list of byte values (0..255). -/
def utf8Bytes (c : Char) : List Nat :=
  let n := c.toNat
  if n < 128 then [n]
  else if n < 2048 then [192 + n / 64, 128 + n % 64]
  else if n < 65536 then [224 + n / 4096, 128 + (n / 64) % 64, 128 + n % 64]
  else [240 + n / 262144, 128 + (n / 4096) % 64, 128 + (n / 64) % 64, 128 + n % 64]

/-- Uppercase hexadecimal digit, as used by `urllib.parse.quote`. -/
def hexDigit (n : Nat) : Char :=
  if n < 10 then Char.ofNat (48 + n) else Char.ofNat (55 + n)

/-- Bytes `urllib.parse.quote` never escapes: ASCII letters, digits, and
`_`, `.`, `-`, `~`. -/
def isAlwaysSafe (n : Nat) : Bool :=
  (65 ≤ n && n ≤ 90) || (97 ≤ n && n ≤ 122) || (48 ≤ n && n ≤ 57) ||
    n == 95 || n == 46 || n == 45 || n == 126

/-- The byte values of the safe set `:/?=` passed at `map_filter1.py:57`. -/
def safeChars : List Nat := [58, 47, 63, 61]

/-- How `urllib.parse.quote` renders one byte: kept verbatim when safe,
otherwise `%XX` with uppercase hex. -/
def quoteByte (n : Nat) : String :=
  if isAlwaysSafe n || safeChars.contains n then
    String.singleton (Char.ofNat n)
  else
    "%" ++ String.singleton (hexDigit (n / 16)) ++ String.singleton (hexDigit (n % 16))

/-- Model of `urllib.parse.quote` with safe set `:/?=`: percent-encode the UTF-8 bytes of
`s`, leaving alphanumerics, `_.-~` and the safe set `:/?=` unescaped. -/
def quote (s : String) : String :=
  String.join (((s.data.map utf8Bytes).flatten).map quoteByte)

/-- Literal template text of the popup before the college name
(`map_filter1.py:60-62`). -/
def popupPartA : String :=
  "\n    <div style=\"width:300px; padding:10px;\">\n        <h4 style=\"color:#2c3e50; margin-bottom:10px; font-family: Arial, sans-serif;\">\n            "

/-- Literal template text between the college name and the ranking. -/
def popupPartB : String :=
  "\n        </h4>\n        <p style=\"margin:5px 0;\"><b>Rank among IIT in India:</b> "

/-- Literal template text between the ranking and the NIRF score. -/
def popupPartC : String :=
  "</p>\n        <p style=\"margin:5px 0;\"><b>NIRF Score:</b> "

/-- Literal template text between the NIRF score and the encoded image URL. -/
def popupPartD : String :=
  "</p>\n        <div style=\"margin-top:10px; text-align:center;\">\n            <img src=\""

/-- Literal template text after the encoded image URL, including the
client-side `onerror` placeholder fallback (`map_filter1.py:68-77`). -/
def popupPartE : String :=
  "\" \n                 style=\"max-width:100%; \n                        height:200px; \n                        object-fit:cover; \n                        border-radius:5px; \n                        box-shadow: 0 2px 4px rgba(0,0,0,0.1);\"\n                 onerror=\"this.onerror=null; this.src=\x27https://via.placeholder.com/300x200?text=Image+Not+Available\x27;\"\n            >\n        </div>\n    </div>\n    "

/-- Model of `create_popup_html` (`map_filter1.py:46-77`): stringify and encode
the Image cell with `quote` and safe set `:/?=`, then substitute name, ranking, score and the
encoded URL into the fixed HTML template.  Field accesses raise `KeyError`
when the column is missing, in the evaluation order of the source (`Image`
first, then the f-string slots). -/
def create_popup_html (row : Row) : Except PyErr String :=
  match rowGet row ("Image") with
  | .error e => .error e
  | .ok img =>
    let image_url := quote (pyStr img)
    match rowGet row ("IIT College") with
    | .error e => .error e
    | .ok name =>
      match rowGet row ("IIT Ranking") with
      | .error e => .error e
      | .ok rank =>
        match rowGet row ("NIRF Score") with
        | .error e => .error e
        | .ok score =>
          .ok (popupPartA ++ pyStr name ++ popupPartB ++ pyStr rank ++ popupPartC ++
            pyStr score ++ popupPartD ++ image_url ++ popupPartE)

/-- The folium check `validate_location` applied to one coordinate (external
library): numeric and not NaN.  `float()` conversion of numeric strings is
not modelled; strings count as non-numeric. -/
def coordOk : PyValue → Bool
  | .str _ => false
  | .int _ => true
  | .float _ => true
  | .nan => false

/-- A composed folium marker: verbatim position, popup HTML with its
`max_width=300`, and the fixed icon style (`color="red"`, glyph
`university` from the `fa` set). -/
structure Marker where
  lat : PyValue
  lng : PyValue
  popupHtml : String
  popupMaxWidth : Nat
  iconColor : String
  iconGlyph : String
  iconLib : String
deriving DecidableEq

/-- The body of the per-row `try` block in `add_iit_markers`
(`map_filter1.py:88-104`): build the popup HTML, read `Latitude` and
`Longitude`, and let folium validate the location; any failure is the
raised exception. -/
def composeMarker (row : Row) : Except PyErr Marker :=
  match create_popup_html row with
  | .error e => .error e
  | .ok html =>
    match rowGet row ("Latitude") with
    | .error e => .error e
    | .ok lat =>
      match rowGet row ("Longitude") with
      | .error e => .error e
      | .ok lng =>
        if coordOk lat && coordOk lng then
          .ok { lat := lat, lng := lng, popupHtml := html, popupMaxWidth := 300,
                iconColor := ("red"), iconGlyph := ("university"), iconLib := ("fa") }
        else
          .error (.valueError ("Location should consist of two numerical values"))

/-- The diagnostic printed by the per-row `except` handler
(`map_filter1.py:106`), given the name value of the record and the caught
exception. -/
def markerDiag (v : PyValue) (e : PyErr) : String :=
  "Error adding marker for " ++ pyStr v ++ ": " ++ errStr e

/-- Outcome of the marker loop: markers added to the feature group so far,
diagnostics printed so far, and — when the `except` handler itself raised —
the uncaught exception (processing stops there). -/
structure MarkerRun where
  markers : List Marker
  logs : List String
  abort : Option PyErr
deriving DecidableEq

/-- `add_iit_markers` (`map_filter1.py:79-106`).  For each row, try to
compose a marker; on failure the handler prints a diagnostic that itself
reads the IIT College cell of the row — if that read raises, the new exception
propagates and the remaining rows are never processed.  The mutation of the
`fg` argument is modelled by returning the composed markers, which
`create_iit_map` appends to the children of the feature group. -/
def add_iit_markers : List Row → MarkerRun
  | [] => { markers := [], logs := [], abort := none }
  | row :: rest =>
    match composeMarker row with
    | .ok m =>
      let r := add_iit_markers rest
      { markers := m :: r.markers, logs := r.logs, abort := r.abort }
    | .error e =>
      match rowGet row ("IIT College") with
      | .ok v =>
        let r := add_iit_markers rest
        { markers := r.markers, logs := markerDiag v e :: r.logs, abort := r.abort }
      | .error e2 => { markers := [], logs := [], abort := some e2 }

/-- A child of the folium feature group: the GeoJSON overlay or a marker. -/
inductive FGChild where
  | geoJson (data : String)
  | marker (m : Marker)
deriving DecidableEq

/-- A folium `FeatureGroup`: its name and attached children. -/
structure FeatureGroup where
  name : String
  children : List FGChild
deriving DecidableEq

/-- Reading a file with `encoding="utf-8-sig"`: a leading byte-order mark,
when present, is stripped. -/
def stripBom (s : String) : String :=
  if s.startsWith ("\uFEFF") then s.drop 1 else s

/-- External-collaborator oracle: the eager folium JSON parse of the GeoJSON
data string (`folium.GeoJson(data=…)`); `.error msg` is the raised
text of the raised exception. -/
structure ExtLib where
  jsonParse : String → Except String Unit

/-- Filesystem plus pandas oracle.  `excel p` is the behaviour of
`pd.read_excel(p)`: `none` when the file is missing (FileNotFoundError),
`some (.error msg)` when reading raises any other exception with text
`msg`, `some (.ok rows)` on success.  `file p` is the text content of the
file at `p` (`none` when missing). -/
structure FS where
  excel : String → Option (Except String (List Row))
  file : String → Option String

/-- `load_iit_data` (`map_filter1.py:8-23`): re-raise a missing file as a
`FileNotFoundError` naming the path, wrap any other failure as
`Exception("Error reading Excel file: …")`. -/
def load_iit_data (fs : FS) (file_path : String) : Except PyErr (List Row) :=
  match fs.excel file_path with
  | none => .error (.fileNotFound ("Excel file not found at: " ++ file_path))
  | some (.error e) => .error (.exception ("Error reading Excel file: " ++ e))
  | some (.ok rows) => .ok rows

/-- `create_feature_group` (`map_filter1.py:25-44`): read the GeoJSON file
as UTF-8 with an optional BOM stripped, let folium parse it, and return the
feature group `"map"` holding the overlay.  A missing file re-raises
`FileNotFoundError` naming the path; any other failure is wrapped as
`Exception("Error creating feature group: …")`. -/
def create_feature_group (ext : ExtLib) (fs : FS) (geojson_path : String) :
    Except PyErr FeatureGroup :=
  match fs.file geojson_path with
  | none => .error (.fileNotFound ("GeoJSON file not found at: " ++ geojson_path))
  | some raw =>
    let geojson_data := stripBom raw
    match ext.jsonParse geojson_data with
    | .error e => .error (.exception ("Error creating feature group: " ++ e))
    | .ok _ => .ok { name := ("map"), children := [FGChild.geoJson geojson_data] }

/-- The in-memory folium map: fixed centre and zoom, tile style, CSS blocks
added to the root, and attached children. -/
structure MapDoc where
  location : Rat × Rat
  zoomStart : Nat
  tiles : String
  cssBlocks : List String
  children : List FeatureGroup
deriving DecidableEq

/-- The fixed CSS block injected once into the map root
(`map_filter1.py:131-152`). -/
def customCss : String :=
  "\n    <style>\n        .folium-popup \x7b\n            font-family: Arial, sans-serif;\n        \x7d\n        .folium-popup img \x7b\n            max-width: 100%;\n            height: auto;\n            display: block;\n            margin: 10px auto;\n        \x7d\n        .folium-popup h4 \x7b\n            color: #2c3e50;\n            border-bottom: 2px solid #3498db;\n            padding-bottom: 5px;\n        \x7d\n        .folium-popup p \x7b\n            margin: 5px 0;\n            color: #34495e;\n        \x7d\n    </style>\n    "

/-- `create_iit_map` (`map_filter1.py:108-160`): load the data, build the
feature group, create the base map, inject the CSS once, run the marker
loop, attach the single feature group, and (on success) save to the output
path.  The returned list is everything printed during the run; the
`Except` is the saved document and its path, or the propagated
exception. -/
def create_iit_map (ext : ExtLib) (fs : FS)
    (data_file geojson_file output_file : String) :
    List String × Except PyErr (MapDoc × String) :=
  match load_iit_data fs data_file with
  | .error e => ([], .error e)
  | .ok data =>
    match create_feature_group ext fs geojson_file with
    | .error e => ([], .error e)
    | .ok fg =>
      let map_obj : MapDoc :=
        { location := (20.5937, 78.9629), zoomStart := 5,
          tiles := ("CartoDB positron"), cssBlocks := [], children := [] }
      let map_obj := { map_obj with cssBlocks := map_obj.cssBlocks ++ [customCss] }
      let r := add_iit_markers data
      match r.abort with
      | some e => (r.logs, .error e)
      | none =>
        let fg := { fg with children := fg.children ++ r.markers.map FGChild.marker }
        let map_obj := { map_obj with children := map_obj.children ++ [fg] }
        (r.logs, .ok (map_obj, output_file))

/-- Deterministic rendering of one marker (abstraction of the folium
template expansion). -/
def serializeMarker (m : Marker) : String :=
  "<marker lat=" ++ pyStr m.lat ++ " lng=" ++ pyStr m.lng ++ " color=" ++
    m.iconColor ++ " glyph=" ++ m.iconGlyph ++ " lib=" ++ m.iconLib ++
    " w=" ++ toString m.popupMaxWidth ++ ">" ++ m.popupHtml ++ "</marker>"

/-- Deterministic rendering of one feature-group child. -/
def serializeChild : FGChild → String
  | .geoJson d => "<geojson>" ++ d ++ "</geojson>"
  | .marker m => serializeMarker m

/-- Deterministic rendering of a feature group. -/
def serializeFG (fg : FeatureGroup) : String :=
  "<fg " ++ fg.name ++ ">" ++ String.join (fg.children.map serializeChild) ++ "</fg>"

/-- Deterministic rendering of the whole map document: the model of
`map_obj.save` (the folium template expansion is a pure function of the
document for a fixed library version). -/
def serializeMap (doc : MapDoc) : String :=
  "<html>" ++ toString doc.location.1.num ++ "/" ++ toString doc.location.1.den ++
    "," ++ toString doc.location.2.num ++ "/" ++ toString doc.location.2.den ++
    ";zoom=" ++ toString doc.zoomStart ++ ";tiles=" ++ doc.tiles ++
    String.join doc.cssBlocks ++ String.join (doc.children.map serializeFG) ++
    "</html>"

/-- The output artifact of a run: the written path and its bytes, or
`none` when the pipeline raised before `map_obj.save`. -/
def runOutput (ext : ExtLib) (fs : FS)
    (data_file geojson_file output_file : String) : Option (String × String) :=
  match (create_iit_map ext fs data_file geojson_file output_file).2 with
  | .ok (doc, path) => some (path, serializeMap doc)
  | .error _ => none

/-- `main` (`map_filter1.py:162-178`), named `mainRun` here since Lean reserves `main`: run the pipeline on the fixed paths,
catch any exception, print either the success message or the failure
message plus the fixed checklist, and return normally.  Result: the lines
printed to stdout and the process exit status. -/
def mainRun (ext : ExtLib) (fs : FS) : List String × Nat :=
  let output_file := ("final12.html")
  match create_iit_map ext fs ("iit_data.xlsx") ("india_states.json") output_file with
  | (logs, .ok _) =>
    (logs ++ ["Map created successfully! Open " ++ output_file ++
      " in a web browser to view."], 0)
  | (logs, .error e) =>
    (logs ++ ["Error creating map: " ++ errStr e,
      "\nPlease ensure:",
      "1. Your Excel file contains all required columns",
      "2. Image URLs are valid and accessible",
      "3. GeoJSON file exists and is valid"], 0)

/-- A row has every column the composer reads, with folium-valid
coordinates: the condition under which composing its marker succeeds. -/
def hasRequiredFields (r : Row) : Bool :=
  (match rowGet r ("Image") with | .ok _ => true | .error _ => false) &&
  (match rowGet r ("IIT College") with | .ok _ => true | .error _ => false) &&
  (match rowGet r ("IIT Ranking") with | .ok _ => true | .error _ => false) &&
  (match rowGet r ("NIRF Score") with | .ok _ => true | .error _ => false) &&
  (match rowGet r ("Latitude") with | .ok v => coordOk v | .error _ => false) &&
  (match rowGet r ("Longitude") with | .ok v => coordOk v | .error _ => false)

/-- A row whose name column (`IIT College`) is readable — the condition
under which the per-row `except` handler can print its diagnostic. -/
def hasName (r : Row) : Bool :=
  match rowGet r ("IIT College") with | .ok _ => true | .error _ => false

/-- A fully well-formed sample record. -/
def rowW : Row :=
  [(("Image"), PyValue.str ("http://x/a b.png")),
   (("IIT College"), PyValue.str ("IIT Madras")),
   (("IIT Ranking"), PyValue.int 1),
   (("NIRF Score"), PyValue.int 90),
   (("Latitude"), PyValue.int 13),
   (("Longitude"), PyValue.int 80)]

/-- The popup HTML composed for `rowW`. -/
def htmlW : String := (create_popup_html rowW).toOption.getD ("")

/-- A record with name, rank, score, latitude and longitude present but no
`Image` column. -/
def rowNoImage : Row :=
  [(("IIT College"), PyValue.str ("IIT Delhi")),
   (("IIT Ranking"), PyValue.int 2),
   (("NIRF Score"), PyValue.int 88),
   (("Latitude"), PyValue.int 28),
   (("Longitude"), PyValue.int 77)]

/-- A record whose `Image` cell holds NaN (the pandas encoding of an empty
cell). -/
def rowNanImage : Row :=
  [(("Image"), PyValue.nan),
   (("IIT College"), PyValue.str ("IIT Bombay")),
   (("IIT Ranking"), PyValue.int 3),
   (("NIRF Score"), PyValue.int 86),
   (("Latitude"), PyValue.int 19),
   (("Longitude"), PyValue.int 72)]

/-- GeoJSON oracle that parses everything. -/
def extOk : ExtLib := { jsonParse := fun _ => Except.ok () }

/-- GeoJSON oracle whose parse always fails (malformed geometry). -/
def extBad : ExtLib := { jsonParse := fun _ => Except.error ("Expecting value") }

/-- A filesystem with neither input file. -/
def fsEmpty : FS := { excel := fun _ => none, file := fun _ => none }

/-- Both input files exist and parse, but the one data row has no columns
at all. -/
def fsBadRow : FS :=
  { excel := fun p => if p == ("iit_data.xlsx") then some (Except.ok [[]]) else none,
    file := fun p => if p == ("india_states.json") then some ("GEO") else none }

/-- Excel parses to no rows; the boundary file exists with a BOM prefix. -/
def fsGeo : FS :=
  { excel := fun p => if p == ("iit_data.xlsx") then some (Except.ok []) else none,
    file := fun p => if p == ("india_states.json") then some ("\uFEFFGEO") else none }

/-- `fsGeo` plus an extra unrelated file. -/
def fsGeoB : FS :=
  { excel := fsGeo.excel,
    file := fun p => if p == ("other.txt") then some ("x") else fsGeo.file p }

/-- A filesystem on which the whole run succeeds with one good record. -/
def fsOkRun : FS :=
  { excel := fun p => if p == ("iit_data.xlsx") then some (Except.ok [rowW]) else none,
    file := fun p => if p == ("india_states.json") then some ("GEO") else none }

/-- The map document produced by the successful run on `fsOkRun`. -/
def docW : MapDoc :=
  (((create_iit_map extOk fsOkRun ("iit_data.xlsx") ("india_states.json")
      ("final12.html")).2.toOption).map Prod.fst).getD
    { location := (0, 0), zoomStart := 0, tiles := (""), cssBlocks := [], children := [] }

/-- Helper: a row with every required column and folium-valid coordinates
composes successfully. -/
theorem composeMarker_ok_of_hasRequiredFields (r : Row)
    (h : hasRequiredFields r = true) : ∃ m, composeMarker r = .ok m := by
  unfold hasRequiredFields at h
  cases hI : rowGet r ("Image") with
  | error e => rw [hI] at h; simp at h
  | ok vI =>
  rw [hI] at h
  cases hN : rowGet r ("IIT College") with
  | error e => rw [hN] at h; simp at h
  | ok vN =>
  rw [hN] at h
  cases hR : rowGet r ("IIT Ranking") with
  | error e => rw [hR] at h; simp at h
  | ok vR =>
  rw [hR] at h
  cases hS : rowGet r ("NIRF Score") with
  | error e => rw [hS] at h; simp at h
  | ok vS =>
  rw [hS] at h
  cases hLa : rowGet r ("Latitude") with
  | error e => rw [hLa] at h; simp at h
  | ok vLa =>
  rw [hLa] at h
  cases hLo : rowGet r ("Longitude") with
  | error e => rw [hLo] at h; simp at h
  | ok vLo =>
  rw [hLo] at h
  simp only [Bool.and_eq_true] at h
  refine ⟨{ lat := vLa, lng := vLo,
            popupHtml := popupPartA ++ pyStr vN ++ popupPartB ++ pyStr vR ++
              popupPartC ++ pyStr vS ++ popupPartD ++ quote (pyStr vI) ++ popupPartE,
            popupMaxWidth := 300, iconColor := ("red"),
            iconGlyph := ("university"), iconLib := ("fa") }, ?_⟩
  unfold composeMarker create_popup_html
  rw [hI, hN, hR, hS, hLa, hLo]
  simp [h.1.2, h.2]

/-- Helper: the marker loop never produces more markers than it has rows,
even when it aborts part-way. -/
theorem markersLenLe (rows : List Row) :
    (add_iit_markers rows).markers.length ≤ rows.length := by
  induction rows with
  | nil => simp [add_iit_markers]
  | cons row rest ih =>
    cases h : composeMarker row with
    | ok m => simp only [add_iit_markers, h, List.length_cons]; omega
    | error e =>
      cases h2 : rowGet row ("IIT College") with
      | ok v => simp only [add_iit_markers, h, h2, List.length_cons]; omega
      | error e2 => simp [add_iit_markers, h, h2]

/-- Helper: when every row has all required fields with valid types, every
row yields a marker. -/
theorem markersLenEq (rows : List Row)
    (h : ∀ r ∈ rows, hasRequiredFields r = true) :
    (add_iit_markers rows).markers.length = rows.length := by
  induction rows with
  | nil => simp [add_iit_markers]
  | cons row rest ih =>
    obtain ⟨m, hm⟩ := composeMarker_ok_of_hasRequiredFields row (h row (by simp))
    have hr := ih (fun r hr => h r (by simp [hr]))
    simp [add_iit_markers, hm, hr]

/-- Helper: a successfully composed marker carries the Latitude and
Longitude cells of its row verbatim. -/
theorem composeMarker_position (r : Row) (m : Marker)
    (h : composeMarker r = .ok m) :
    rowGet r ("Latitude") = .ok m.lat ∧ rowGet r ("Longitude") = .ok m.lng := by
  unfold composeMarker at h
  cases hp : create_popup_html r with
  | error e => rw [hp] at h; exact absurd h (by simp)
  | ok html =>
  rw [hp] at h
  cases hla : rowGet r ("Latitude") with
  | error e => rw [hla] at h; exact absurd h (by simp)
  | ok lat =>
  rw [hla] at h
  cases hlo : rowGet r ("Longitude") with
  | error e => rw [hlo] at h; exact absurd h (by simp)
  | ok lng =>
  rw [hlo] at h
  dsimp only at h
  by_cases hc : (coordOk lat && coordOk lng) = true
  · rw [if_pos hc] at h
    injection h with h
    subst h
    exact ⟨rfl, rfl⟩
  · rw [if_neg hc] at h
    exact absurd h (by simp)

/-- C4 (amended): provided the marker loop completes without aborting, the
sequence of successfully composed markers equals the dataset order with the
failed records removed, and each marker position is the (Latitude,
Longitude) pair of its record taken verbatim. -/
theorem markers_C4_amended (rows : List Row)
    (h : (add_iit_markers rows).abort = none) :
    (add_iit_markers rows).markers =
      rows.filterMap (fun r => (composeMarker r).toOption) ∧
    (∀ r m, composeMarker r = .ok m →
      rowGet r ("Latitude") = .ok m.lat ∧ rowGet r ("Longitude") = .ok m.lng) := by
  refine ⟨?_, fun r m hm => composeMarker_position r m hm⟩
  induction rows with
  | nil => simp [add_iit_markers]
  | cons row rest ih =>
    cases hc : composeMarker row with
    | ok m =>
      have h2 : (add_iit_markers rest).abort = none := by
        simp only [add_iit_markers, hc] at h; exact h
      simp only [add_iit_markers, hc, List.filterMap_cons]
      simp [hc, Except.toOption, ih h2]
    | error e =>
      cases hv : rowGet row ("IIT College") with
      | error e2 =>
        exfalso
        simp only [add_iit_markers, hc, hv] at h
        exact absurd h (by simp)
      | ok v =>
        have h2 : (add_iit_markers rest).abort = none := by
          simp only [add_iit_markers, hc, hv] at h; exact h
        simp only [add_iit_markers, hc, hv, List.filterMap_cons]
        simp [hc, Except.toOption, ih h2]

/-- C4 witness: the amended statement evaluated on a concrete one-row
dataset. -/
theorem markers_C4_amended_witness :
    (add_iit_markers [rowW]).markers =
      List.filterMap (fun r => (composeMarker r).toOption) [rowW] :=
  (markers_C4_amended [rowW] (by rfl)).1

/-- C4 (counterexample): a dataset whose first record has no columns and
whose second record is well formed makes the loop abort, so the produced
marker sequence is empty and is not the dataset order with failed records
removed (which would contain the second marker). -/
theorem markers_C4_cex :
    (composeMarker ([] : Row)).toOption = none ∧
    (composeMarker rowW).toOption.isSome = true ∧
    (add_iit_markers [([] : Row), rowW]).markers = [] ∧
    (add_iit_markers [([] : Row), rowW]).markers ≠
      List.filterMap (fun r => (composeMarker r).toOption) [([] : Row), rowW] := by
  decide

/-- C1 (counterexample): both input files exist and parse, yet a single
record with no columns makes the per-record handler itself raise
KeyError of the name column, aborting the whole run instead of skipping
the record and continuing. -/
theorem markers_C1_cex :
    load_iit_data fsBadRow ("iit_data.xlsx") = Except.ok [[]] ∧
    create_feature_group extOk fsBadRow ("india_states.json") =
      Except.ok { name := ("map"), children := [FGChild.geoJson ("GEO")] } ∧
    (add_iit_markers [([] : Row)]).abort = some (PyErr.keyError ("IIT College")) ∧
    (create_iit_map extOk fsBadRow ("iit_data.xlsx") ("india_states.json")
        ("final12.html")).2 = Except.error (PyErr.keyError ("IIT College")) ∧
    (mainRun extOk fsBadRow).1 =
      ["Error creating map: " ++ errStr (PyErr.keyError ("IIT College")),
       "\nPlease ensure:",
       "1. Your Excel file contains all required columns",
       "2. Image URLs are valid and accessible",
       "3. GeoJSON file exists and is valid"] := by
  decide

/-- C1 (amended): provided every record has a readable name column, a
record whose marker composition raises is skipped with a diagnostic naming
it and composition continues through every remaining record — the loop
never aborts, and markers plus diagnostics account for all rows. -/
theorem markers_C1_amended (rows : List Row)
    (h : ∀ r ∈ rows, hasName r = true) :
    (add_iit_markers rows).abort = none ∧
    (add_iit_markers rows).markers.length + (add_iit_markers rows).logs.length
      = rows.length ∧
    (add_iit_markers rows).logs = rows.filterMap (fun r =>
      match composeMarker r, rowGet r ("IIT College") with
      | .error e, .ok v => some (markerDiag v e)
      | _, _ => none) := by
  induction rows with
  | nil => simp [add_iit_markers]
  | cons row rest ih =>
    have hrest := ih (fun r hr => h r (by simp [hr]))
    cases hc : composeMarker row with
    | ok m =>
      refine ⟨?_, ?_, ?_⟩
      · simp only [add_iit_markers, hc]; exact hrest.1
      · simp only [add_iit_markers, hc, List.length_cons]
        have := hrest.2.1
        omega
      · simp only [add_iit_markers, hc, List.filterMap_cons]
        simp [hc, hrest.2.2]
    | error e =>
      have hname := h row (by simp)
      unfold hasName at hname
      cases hv : rowGet row ("IIT College") with
      | error e2 => rw [hv] at hname; simp at hname
      | ok v =>
        refine ⟨?_, ?_, ?_⟩
        · simp only [add_iit_markers, hc, hv]; exact hrest.1
        · simp only [add_iit_markers, hc, hv, List.length_cons]
          have := hrest.2.1
          omega
        · simp only [add_iit_markers, hc, hv, List.filterMap_cons]
          simp [hc, hv, hrest.2.2]

/-- C1 witness: the amended statement evaluated on a dataset whose one
record is malformed but has its name column. -/
theorem markers_C1_amended_witness :
    (add_iit_markers [rowNoImage]).abort = none ∧
    (add_iit_markers [rowNoImage]).markers.length +
      (add_iit_markers [rowNoImage]).logs.length = 1 ∧
    (add_iit_markers [rowNoImage]).logs = List.filterMap (fun r =>
      match composeMarker r, rowGet r ("IIT College") with
      | .error e, .ok v => some (markerDiag v e)
      | _, _ => none) [rowNoImage] :=
  markers_C1_amended [rowNoImage] (by decide)

/-- C9 (counterexample): a record with name, rank, score, latitude and
longitude present but no Image column makes popup construction raise
KeyError of the Image column, so the record is skipped rather than given a
popup. -/
theorem popup_C9_cex :
    (match rowGet rowNoImage ("IIT College") with | .ok _ => true | .error _ => false) = true ∧
    (match rowGet rowNoImage ("IIT Ranking") with | .ok _ => true | .error _ => false) = true ∧
    (match rowGet rowNoImage ("NIRF Score") with | .ok _ => true | .error _ => false) = true ∧
    (match rowGet rowNoImage ("Latitude") with | .ok _ => true | .error _ => false) = true ∧
    (match rowGet rowNoImage ("Longitude") with | .ok _ => true | .error _ => false) = true ∧
    create_popup_html rowNoImage = Except.error (PyErr.keyError ("Image")) ∧
    (add_iit_markers [rowNoImage]).markers = [] ∧
    (add_iit_markers [rowNoImage]).logs.length = 1 := by
  decide

/-- C9 (amended): for any record whose Image column is present — whatever
the type of the value, including NaN — building the popup HTML never
raises: the value is coerced to a string and percent-encoded into the
popup. -/
theorem popup_C9_amended (row : Row) (v nm rk sc : PyValue)
    (hImg : rowGet row ("Image") = .ok v)
    (hn : rowGet row ("IIT College") = .ok nm)
    (hr : rowGet row ("IIT Ranking") = .ok rk)
    (hs : rowGet row ("NIRF Score") = .ok sc) :
    create_popup_html row = .ok (popupPartA ++ pyStr nm ++ popupPartB ++ pyStr rk ++
      popupPartC ++ pyStr sc ++ popupPartD ++ quote (pyStr v) ++ popupPartE) := by
  unfold create_popup_html
  rw [hImg, hn, hr, hs]

/-- C9 witness: the amended statement evaluated on a record whose Image
cell is NaN. -/
theorem popup_C9_amended_witness :
    create_popup_html rowNanImage = .ok (popupPartA ++ pyStr (PyValue.str ("IIT Bombay")) ++
      popupPartB ++ pyStr (PyValue.int 3) ++ popupPartC ++ pyStr (PyValue.int 86) ++
      popupPartD ++ quote (pyStr PyValue.nan) ++ popupPartE) :=
  popup_C9_amended rowNanImage PyValue.nan (PyValue.str ("IIT Bombay"))
    (PyValue.int 3) (PyValue.int 86) (by rfl) (by rfl) (by rfl) (by rfl)

/-- C2: the popup HTML embeds the image reference of the record
percent-encoded with the characters in the safe set `:/?=` left unescaped;
in particular the URL `http://x/a b.png` encodes to
`http://x/a%20b.png`. -/
theorem popup_C2 (row : Row) (v : PyValue) (html : String)
    (hImg : rowGet row ("Image") = .ok v)
    (hok : create_popup_html row = .ok html) :
    (∃ pre post, html = pre ++ quote (pyStr v) ++ post) ∧
    quote ("http://x/a b.png") = "http://x/a%20b.png" ∧
    quote (":") = ":" ∧ quote ("/") = "/" ∧ quote ("?") = "?" ∧ quote ("=") = "=" := by
  refine ⟨?_, by decide, by decide, by decide, by decide, by decide⟩
  unfold create_popup_html at hok
  rw [hImg] at hok
  cases hn : rowGet row ("IIT College") with
  | error e => rw [hn] at hok; exact absurd hok (by simp)
  | ok nv =>
    cases hr : rowGet row ("IIT Ranking") with
    | error e => rw [hn, hr] at hok; exact absurd hok (by simp)
    | ok rv =>
      cases hs : rowGet row ("NIRF Score") with
      | error e => rw [hn, hr, hs] at hok; exact absurd hok (by simp)
      | ok sv =>
        rw [hn, hr, hs] at hok
        simp only [Except.ok.injEq] at hok
        refine ⟨popupPartA ++ pyStr nv ++ popupPartB ++ pyStr rv ++ popupPartC ++
          pyStr sv ++ popupPartD, popupPartE, ?_⟩
        rw [← hok]

/-- C2 witness: the statement evaluated on a concrete record with image
URL `http://x/a b.png`. -/
theorem popup_C2_witness :
    (∃ pre post, htmlW = pre ++ quote (pyStr (PyValue.str ("http://x/a b.png"))) ++ post) ∧
    quote ("http://x/a b.png") = "http://x/a%20b.png" ∧
    quote (":") = ":" ∧ quote ("/") = "/" ∧ quote ("?") = "?" ∧ quote ("=") = "=" :=
  popup_C2 rowW (PyValue.str ("http://x/a b.png")) htmlW (by rfl) (by rfl)

/-- C5: a missing spreadsheet source fails with a FileNotFoundError naming
the path and the run produces no output file; any other read failure is
wrapped as a SourceReadError-style exception, also with no output. -/
theorem loader_C5 (ext : ExtLib) (fs : FS) (df gf pf : String) :
    (fs.excel df = none →
      (create_iit_map ext fs df gf pf).2 =
        Except.error (PyErr.fileNotFound ("Excel file not found at: " ++ df)) ∧
      runOutput ext fs df gf pf = none) ∧
    (∀ e, fs.excel df = some (Except.error e) →
      (create_iit_map ext fs df gf pf).2 =
        Except.error (PyErr.exception ("Error reading Excel file: " ++ e)) ∧
      runOutput ext fs df gf pf = none) := by
  constructor
  · intro h
    have hl : load_iit_data fs df =
        Except.error (PyErr.fileNotFound ("Excel file not found at: " ++ df)) := by
      simp [load_iit_data, h]
    exact ⟨by simp [create_iit_map, hl], by simp [runOutput, create_iit_map, hl]⟩
  · intro e h
    have hl : load_iit_data fs df =
        Except.error (PyErr.exception ("Error reading Excel file: " ++ e)) := by
      simp [load_iit_data, h]
    exact ⟨by simp [create_iit_map, hl], by simp [runOutput, create_iit_map, hl]⟩

/-- C5 witness: the statement evaluated on a filesystem with no files. -/
theorem loader_C5_witness :
    (create_iit_map extOk fsEmpty ("iit_data.xlsx") ("india_states.json")
        ("final12.html")).2 =
      Except.error (PyErr.fileNotFound ("Excel file not found at: " ++ "iit_data.xlsx")) ∧
    runOutput extOk fsEmpty ("iit_data.xlsx") ("india_states.json") ("final12.html") = none :=
  (loader_C5 extOk fsEmpty ("iit_data.xlsx") ("india_states.json") ("final12.html")).1 (by rfl)

/-- Helper: a successful feature-group build read the boundary file and
wrapped its BOM-stripped content as the single GeoJSON child of the
group named map. -/
theorem create_feature_group_shape (ext : ExtLib) (fs : FS) (g : String)
    (fg : FeatureGroup) (h : create_feature_group ext fs g = Except.ok fg) :
    ∃ raw, fs.file g = some raw ∧
      fg = { name := ("map"), children := [FGChild.geoJson (stripBom raw)] } := by
  unfold create_feature_group at h
  cases hr : fs.file g with
  | none => rw [hr] at h; exact absurd h (by simp)
  | some raw =>
  rw [hr] at h
  dsimp only at h
  cases hp : ext.jsonParse (stripBom raw) with
  | error e => rw [hp] at h; exact absurd h (by simp)
  | ok u =>
    rw [hp] at h
    injection h with h
    exact ⟨raw, rfl, h.symm⟩

/-- C6: the boundary file is read with an optional BOM stripped; a missing
file fails with a FileNotFoundError naming the path; an existing file with
invalid geometry fails with a wrapped parse error and the run produces no
output file. -/
theorem boundary_C6 (ext : ExtLib) (fs : FS) (df gf pf : String) :
    (∀ raw fg, fs.file gf = some raw →
      create_feature_group ext fs gf = Except.ok fg →
      fg = { name := ("map"), children := [FGChild.geoJson (stripBom raw)] }) ∧
    (fs.file gf = none →
      create_feature_group ext fs gf =
        Except.error (PyErr.fileNotFound ("GeoJSON file not found at: " ++ gf))) ∧
    (∀ raw msg rows, fs.file gf = some raw →
      ext.jsonParse (stripBom raw) = Except.error msg →
      fs.excel df = some (Except.ok rows) →
      (create_iit_map ext fs df gf pf).2 =
        Except.error (PyErr.exception ("Error creating feature group: " ++ msg)) ∧
      runOutput ext fs df gf pf = none) := by
  refine ⟨?_, ?_, ?_⟩
  · intro raw fg hraw hok
    obtain ⟨raw2, hraw2, hfg⟩ := create_feature_group_shape ext fs gf fg hok
    rw [hraw] at hraw2
    injection hraw2 with hraw2
    rw [hraw2]
    exact hfg
  · intro h
    simp [create_feature_group, h]
  · intro raw msg rows hraw hp hx
    have hl : load_iit_data fs df = Except.ok rows := by simp [load_iit_data, hx]
    have hf : create_feature_group ext fs gf =
        Except.error (PyErr.exception ("Error creating feature group: " ++ msg)) := by
      simp [create_feature_group, hraw, hp]
    exact ⟨by simp [create_iit_map, hl, hf], by simp [runOutput, create_iit_map, hl, hf]⟩

/-- C6 witness: the statement evaluated on a missing boundary file and on
a BOM-prefixed boundary file whose parse fails. -/
theorem boundary_C6_witness :
    create_feature_group extBad fsEmpty ("india_states.json") =
      Except.error (PyErr.fileNotFound ("GeoJSON file not found at: " ++ "india_states.json")) ∧
    (create_iit_map extBad fsGeo ("iit_data.xlsx") ("india_states.json")
        ("final12.html")).2 =
      Except.error (PyErr.exception ("Error creating feature group: " ++ "Expecting value")) ∧
    runOutput extBad fsGeo ("iit_data.xlsx") ("india_states.json") ("final12.html") = none :=
  ⟨(boundary_C6 extBad fsEmpty ("iit_data.xlsx") ("india_states.json") ("final12.html")).2.1 (by rfl),
   ((boundary_C6 extBad fsGeo ("iit_data.xlsx") ("india_states.json") ("final12.html")).2.2
      ("\uFEFFGEO") ("Expecting value") [] (by rfl) (by rfl) (by rfl)).1,
   ((boundary_C6 extBad fsGeo ("iit_data.xlsx") ("india_states.json") ("final12.html")).2.2
      ("\uFEFFGEO") ("Expecting value") [] (by rfl) (by rfl) (by rfl)).2⟩

/-- C7: two runs over filesystems that agree on the two input files
produce identical results — in particular byte-for-byte identical output
artifacts. -/
theorem determinism_C7 (ext : ExtLib) (fs1 fs2 : FS) (df gf pf : String)
    (he : fs1.excel df = fs2.excel df) (hg : fs1.file gf = fs2.file gf) :
    create_iit_map ext fs1 df gf pf = create_iit_map ext fs2 df gf pf ∧
    runOutput ext fs1 df gf pf = runOutput ext fs2 df gf pf := by
  have h1 : load_iit_data fs1 df = load_iit_data fs2 df := by
    simp [load_iit_data, he]
  have h2 : create_feature_group ext fs1 gf = create_feature_group ext fs2 gf := by
    simp [create_feature_group, hg]
  have h3 : create_iit_map ext fs1 df gf pf = create_iit_map ext fs2 df gf pf := by
    simp [create_iit_map, h1, h2]
  exact ⟨h3, by simp [runOutput, h3]⟩

/-- C7 witness: the statement evaluated on two concrete filesystems that
differ only in an unrelated file. -/
theorem determinism_C7_witness :
    create_iit_map extOk fsGeo ("iit_data.xlsx") ("india_states.json") ("final12.html") =
      create_iit_map extOk fsGeoB ("iit_data.xlsx") ("india_states.json") ("final12.html") ∧
    runOutput extOk fsGeo ("iit_data.xlsx") ("india_states.json") ("final12.html") =
      runOutput extOk fsGeoB ("iit_data.xlsx") ("india_states.json") ("final12.html") :=
  determinism_C7 extOk fsGeo fsGeoB ("iit_data.xlsx") ("india_states.json")
    ("final12.html") (by rfl) (by rfl)

/-- C8: the entry point always exits with status 0, and on any pipeline
failure prints the failure message followed by the fixed checklist. -/
theorem main_C8 (ext : ExtLib) (fs : FS) :
    (mainRun ext fs).2 = 0 ∧
    (∀ e, (create_iit_map ext fs ("iit_data.xlsx") ("india_states.json")
        ("final12.html")).2 = Except.error e →
      (mainRun ext fs).1 =
        (create_iit_map ext fs ("iit_data.xlsx") ("india_states.json")
          ("final12.html")).1 ++
        ["Error creating map: " ++ errStr e,
         "\nPlease ensure:",
         "1. Your Excel file contains all required columns",
         "2. Image URLs are valid and accessible",
         "3. GeoJSON file exists and is valid"]) := by
  constructor
  · unfold mainRun
    dsimp only
    rcases h : create_iit_map ext fs ("iit_data.xlsx") ("india_states.json")
      ("final12.html") with ⟨logs, res⟩
    cases res <;> simp
  · intro e he
    unfold mainRun
    dsimp only
    rcases h : create_iit_map ext fs ("iit_data.xlsx") ("india_states.json")
      ("final12.html") with ⟨logs, res⟩
    rw [h] at he
    dsimp only at he
    subst he
    simp

/-- C8 witness: the statement evaluated on a filesystem with no input
files. -/
theorem main_C8_witness :
    (mainRun extOk fsEmpty).2 = 0 ∧
    (mainRun extOk fsEmpty).1 =
      (create_iit_map extOk fsEmpty ("iit_data.xlsx") ("india_states.json")
        ("final12.html")).1 ++
      ["Error creating map: " ++
        errStr (PyErr.fileNotFound ("Excel file not found at: iit_data.xlsx")),
       "\nPlease ensure:",
       "1. Your Excel file contains all required columns",
       "2. Image URLs are valid and accessible",
       "3. GeoJSON file exists and is valid"] :=
  ⟨(main_C8 extOk fsEmpty).1,
   (main_C8 extOk fsEmpty).2
     (PyErr.fileNotFound ("Excel file not found at: iit_data.xlsx")) (by rfl)⟩

/-- C10: in a successful run, the assembled document has exactly one child
— the feature group named map holding the boundary GeoJSON first and then
all markers — and the fixed CSS block appears exactly once. -/
theorem assemble_C10 (ext : ExtLib) (fs : FS) (df gf pf : String)
    (logs : List String) (doc : MapDoc) (out : String)
    (h : create_iit_map ext fs df gf pf = (logs, Except.ok (doc, out))) :
    (∃ (geo : String) (ms : List Marker), doc.children =
      [{ name := ("map"), children := FGChild.geoJson geo :: ms.map FGChild.marker }]) ∧
    doc.cssBlocks = [customCss] := by
  unfold create_iit_map at h
  cases hl : load_iit_data fs df with
  | error e => rw [hl] at h; exact absurd h (by simp)
  | ok data =>
  rw [hl] at h
  cases hf : create_feature_group ext fs gf with
  | error e => rw [hf] at h; exact absurd h (by simp)
  | ok fg =>
  rw [hf] at h
  dsimp only at h
  obtain ⟨raw, hraw, hfg⟩ := create_feature_group_shape ext fs gf fg hf
  cases ha : (add_iit_markers data).abort with
  | some e => rw [ha] at h; exact absurd h (by simp)
  | none =>
    rw [ha] at h
    simp only [Prod.mk.injEq, Except.ok.injEq] at h
    obtain ⟨-, hdoc, -⟩ := h
    subst hdoc
    subst hfg
    refine ⟨⟨stripBom raw, (add_iit_markers data).markers, ?_⟩, ?_⟩
    · simp
    · simp

/-- C10 witness: the statement evaluated on a concrete successful run. -/
theorem assemble_C10_witness :
    (∃ (geo : String) (ms : List Marker), docW.children =
      [{ name := ("map"), children := FGChild.geoJson geo :: ms.map FGChild.marker }]) ∧
    docW.cssBlocks = [customCss] :=
  assemble_C10 extOk fsOkRun ("iit_data.xlsx") ("india_states.json") ("final12.html")
    [] docW ("final12.html") (by rfl)

/-- C3: the composer never produces more markers than there are source
rows, and produces exactly one marker per row when every row has all
required fields with valid types. -/
theorem markers_C3 (rows : List Row) :
    (add_iit_markers rows).markers.length ≤ rows.length ∧
    ((∀ r ∈ rows, hasRequiredFields r = true) →
      (add_iit_markers rows).markers.length = rows.length) :=
  ⟨markersLenLe rows, markersLenEq rows⟩

/-- C3 witness: the statement evaluated on a concrete one-row dataset. -/
theorem markers_C3_witness :
    (add_iit_markers [rowW]).markers.length ≤ 1 ∧
    (add_iit_markers [rowW]).markers.length = 1 :=
  ⟨(markers_C3 [rowW]).1, (markers_C3 [rowW]).2 (by decide)⟩
